/-
Verification of the Codelia terminal-bench adapter
(src/tools/terminal_bench_python_adapter/codelia_agent.py).

The Python class `CodeliaInstalledAgent` is shallowly embedded below:
pure helpers become Lean functions, the stateful `setup`/`run` methods
become functions from the environment's responses (exec results, process
environment) to an explicit outcome record, and Python exceptions become
`Except`/`Option` error values.  Python string methods (`strip`, `lower`,
`split("/", 1)`, truthiness) are embedded as structural char-list
functions so that everything evaluates inside the kernel.
-/
import Mathlib

/-! ### Embedded Python string primitives -/

/-- Python `str.isspace` on the ASCII whitespace characters stripped by
`str.strip()` (space, tab, newline, carriage return, vertical tab, form
feed).  Non-ASCII Unicode whitespace is not modelled. -/
def pyIsSpace (c : Char) : Bool :=
  c = ' ' || c = '\t' || c = '\n' || c = '\r' || c = '\x0b' || c = '\x0c'

/-- Python `str.strip()`: drop leading and trailing whitespace. -/
def pyStrip (s : String) : String :=
  String.mk (((s.data.dropWhile pyIsSpace).reverse.dropWhile pyIsSpace).reverse)

/-- Python `str.lower()` (ASCII case mapping). -/
def pyLower (s : String) : String :=
  String.mk (s.data.map Char.toLower)

/-- Python string truthiness: `bool(s)` is `False` exactly for `""`. -/
def strTruthy (s : String) : Bool :=
  !(s = "")

/-- Python `a or b` on strings: `b` when `a` is falsy (empty), else `a`. -/
def pyOr (a b : String) : String :=
  if a = "" then b else a

/-- Truthiness of an optional string (Python `None` is falsy, a string is
truthy iff non-empty); used for `if self._reasoning:`-style tests. -/
def optTruthy : Option String → Bool
  | none => false
  | some s => strTruthy s

/-- DecidableEq for `Except`, needed to `decide` concrete outcomes. -/
instance {α β : Type} [DecidableEq α] [DecidableEq β] : DecidableEq (Except α β) := by
  intro a b
  cases a <;> cases b
  case error.error x y =>
    exact if h : x = y then isTrue (by rw [h]) else isFalse (by intro hc; cases hc; exact h rfl)
  case error.ok x y => exact isFalse (by intro hc; cases hc)
  case ok.error x y => exact isFalse (by intro hc; cases hc)
  case ok.ok x y =>
    exact if h : x = y then isTrue (by rw [h]) else isFalse (by intro hc; cases hc; exact h rfl)

/-! ### Python values for boolish parsing

`_parse_boolish` accepts `bool`, `int`/`float`, and `str` arguments (any
other object, including `None`, parses to `None`).  Numbers are embedded
as rationals, which covers Python ints and all floats the comparisons
`value == 1` / `value == 0` can distinguish. -/

inductive PyVal where
  | vNone : PyVal
  | vBool (b : Bool) : PyVal
  | vNum (q : ℚ) : PyVal
  | vStr (s : String) : PyVal
deriving DecidableEq

/-- Embeds `CodeliaInstalledAgent._parse_boolish`. -/
def _parse_boolish : PyVal → Option Bool
  | .vBool b => some b
  | .vNum q =>
    if q = 1 then some true
    else if q = 0 then some false
    else none
  | .vStr s =>
    let normalized := pyLower (pyStrip s)
    if normalized ∈ ["1", "true", "yes", "on"] then some true
    else if normalized ∈ ["0", "false", "no", "off"] then some false
    else none
  | .vNone => none

/-! ### Constructor-time normalizers -/

/-- The class constant `SUPPORTED_REASONING_LEVELS` (source order). -/
def SUPPORTED_REASONING_LEVELS : List String := ["low", "medium", "high", "xhigh"]

/-- The message built by `"|".join(sorted(SUPPORTED_REASONING_LEVELS))`:
sorted order is high, low, medium, xhigh. -/
def reasoningSupportedMsg : String := "reasoning must be one of: high|low|medium|xhigh"

/-- Embeds `CodeliaInstalledAgent._normalize_reasoning`: `None` and
whitespace-only inputs yield no level; otherwise the trimmed, lower-cased
form must be a supported level and is stored. -/
def _normalize_reasoning : Option String → Except String (Option String)
  | none => Except.ok none
  | some value =>
    let normalized := pyLower (pyStrip value)
    if normalized = "" then Except.ok none
    else if normalized ∈ SUPPORTED_REASONING_LEVELS then Except.ok (some normalized)
    else Except.error reasoningSupportedMsg

/-- The class constant `SUPPORTED_EXPERIMENTAL_OPENAI_WEBSOCKET_MODES`
(source order). -/
def SUPPORTED_EXPERIMENTAL_OPENAI_WEBSOCKET_MODES : List String := ["off", "auto", "on"]

/-- Embeds `CodeliaInstalledAgent._normalize_experimental_openai_websocket_mode`;
the message joins the sorted set: auto, off, on. -/
def _normalize_experimental_openai_websocket_mode :
    Option String → Except String (Option String)
  | none => Except.ok none
  | some value =>
    let normalized := pyLower (pyStrip value)
    if normalized = "" then Except.ok none
    else if normalized ∈ SUPPORTED_EXPERIMENTAL_OPENAI_WEBSOCKET_MODES then
      Except.ok (some normalized)
    else Except.error "experimental_openai_websocket_mode must be one of: auto|off|on"

/-- The class constant `SUPPORTED_PROMPT_PROGRESS_STDERR_MODES` (source
order). -/
def SUPPORTED_PROMPT_PROGRESS_STDERR_MODES : List String := ["off", "auto", "on"]

/-- Embeds `CodeliaInstalledAgent._normalize_prompt_progress_stderr`: `None` maps
to "auto"; boolish values map to "on"/"off"; remaining strings yield
"auto" when empty or "auto", their normalized form when in the supported
set, and an error otherwise; non-strings are rejected. -/
def _normalize_prompt_progress_stderr (value : PyVal) : Except String String :=
  match value with
  | .vNone => Except.ok "auto"
  | _ =>
    match _parse_boolish value with
    | some b => Except.ok (if b then "on" else "off")
    | none =>
      match value with
      | .vStr s =>
        let normalized := pyLower (pyStrip s)
        if normalized = "" then Except.ok "auto"
        else if normalized = "auto" then Except.ok "auto"
        else if normalized ∈ SUPPORTED_PROMPT_PROGRESS_STDERR_MODES then
          Except.ok normalized
        else Except.error "prompt_progress_stderr must be one of: auto|off|on"
      | _ => Except.error "prompt_progress_stderr must be bool or string"

/-! ### Model selector -/

/-- Python `"/" in s` for the slash character. -/
def containsSlash : List Char → Bool
  | [] => false
  | c :: cs => c = '/' || containsSlash cs

/-- Python `s.split("/", 1)` at the character level: the characters before
the first `'/'` and the characters after it. -/
def splitFirstSlash : List Char → List Char × List Char
  | [] => ([], [])
  | c :: cs =>
    if c = '/' then ([], cs)
    else
      let r := splitFirstSlash cs
      (c :: r.1, r.2)

/-- Embeds `CodeliaInstalledAgent._resolve_model_selector`: `None`/empty model
name gives no selector; a name with a slash splits at the first slash,
a bare name defaults the provider to "openai"; both parts are trimmed and
must be non-empty. -/
def _resolve_model_selector (model_name : Option String) : Option (String × String) :=
  match model_name with
  | none => none
  | some s =>
    if s = "" then none
    else
      let pr :=
        if containsSlash s.data then
          let r := splitFirstSlash s.data
          (String.mk r.1, String.mk r.2)
        else ("openai", s)
      let provider := pyStrip pr.1
      let name := pyStrip pr.2
      if provider = "" ∨ name = "" then none
      else some (provider, name)

/-! ### Model config document and its JSON rendering -/

/-- The dict built by `_model_config_json` before serialization:
`{"version": 1, "model": {"provider", "name"[, "reasoning"]}}` plus an
optional `{"experimental": {"openai": {"websocket_mode": ...}}}` block. -/
structure ConfigDoc where
  version : Nat
  provider : String
  name : String
  reasoning : Option String
  websocketMode : Option String
deriving DecidableEq

/-- Hexadecimal digit (lower case), as used by Python `\uXXXX` escapes. -/
def hexDigitChar (n : Nat) : Char :=
  if n < 10 then Char.ofNat (48 + n) else Char.ofNat (87 + n)

/-- Four-digit lower-case hexadecimal rendering. -/
def hex4 (n : Nat) : String :=
  String.mk [hexDigitChar (n / 4096 % 16), hexDigitChar (n / 256 % 16),
    hexDigitChar (n / 16 % 16), hexDigitChar (n % 16)]

/-- Python `json.dumps` escaping of one character (default
`ensure_ascii=True`): quote, backslash and the short control escapes get a
backslash form; other characters outside `0x20..0x7e` become `\uXXXX`
(surrogate pairs above `0xffff`); the rest pass through. -/
def jsonEscapeChar (c : Char) : String :=
  if c = '"' then "\\\""
  else if c = '\\' then "\\\\"
  else if c = '\n' then "\\n"
  else if c = '\t' then "\\t"
  else if c = '\r' then "\\r"
  else if c.toNat = 8 then "\\b"
  else if c.toNat = 12 then "\\f"
  else if c.toNat < 32 ∨ c.toNat > 126 then
    if c.toNat < 65536 then "\\u" ++ hex4 c.toNat
    else
      let n := c.toNat - 65536
      "\\u" ++ hex4 (55296 + n / 1024) ++ "\\u" ++ hex4 (56320 + n % 1024)
  else String.mk [c]

/-- Python `json.dumps` of a string value. -/
def jsonString (s : String) : String :=
  "\"" ++ String.join (s.data.map jsonEscapeChar) ++ "\""

/-- Emulates `json.dumps(config, indent=2)` on the exact dict shape built by
`_model_config_json` (insertion order: version, model.provider,
model.name, model.reasoning, experimental.openai.websocket_mode). -/
def renderConfigDoc (d : ConfigDoc) : String :=
  "\x7b\n  \"version\": " ++ toString d.version ++ ",\n  \"model\": \x7b\n    \"provider\": "
    ++ jsonString d.provider ++ ",\n    \"name\": " ++ jsonString d.name
    ++ (match d.reasoning with
        | some r => ",\n    \"reasoning\": " ++ jsonString r
        | none => "")
    ++ "\n  \x7d"
    ++ (match d.websocketMode with
        | some m =>
          ",\n  \"experimental\": \x7b\n    \"openai\": \x7b\n      \"websocket_mode\": "
            ++ jsonString m ++ "\n    \x7d\n  \x7d"
        | none => "")
    ++ "\n\x7d"

/-! ### Agent state after construction -/

/-- The fields of `CodeliaInstalledAgent` that `_model_config_json`,
`setup` and `run` read.  `reasoning` and
`experimental_openai_websocket_mode` hold the constructor-normalized
values; `harbor_job_debug` is the cached `_detect_harbor_job_debug`
result; `auth_file_exists` abstracts `self._auth_file.exists()`. -/
structure Agent where
  model_name : Option String
  approval_mode : String
  reasoning : Option String
  experimental_openai_websocket_mode : Option String
  prompt_progress_stderr_mode : String
  harbor_job_debug : Bool
  auth_file_exists : Bool
deriving DecidableEq

/-- The structured part of `CodeliaInstalledAgent._model_config_json`:
selector resolution, the two validation errors, and the dict that is then
serialized.  `Except.ok none` is the Python `return None` path. -/
def modelConfigDoc (a : Agent) : Except String (Option ConfigDoc) :=
  match _resolve_model_selector a.model_name with
  | none =>
    if optTruthy a.reasoning || optTruthy a.experimental_openai_websocket_mode then
      Except.error "reasoning and experimental_openai_websocket_mode require model_name"
    else Except.ok none
  | some (provider, name) =>
    if optTruthy a.experimental_openai_websocket_mode = true ∧ provider ≠ "openai" then
      Except.error "experimental_openai_websocket_mode is only supported for openai provider"
    else
      Except.ok (some
        { version := 1
          provider := provider
          name := name
          reasoning := if optTruthy a.reasoning then a.reasoning else none
          websocketMode :=
            if optTruthy a.experimental_openai_websocket_mode then
              a.experimental_openai_websocket_mode
            else none })

/-- Embeds `CodeliaInstalledAgent._model_config_json`: the document rendered with
`json.dumps(..., indent=2)` plus a trailing newline. -/
def _model_config_json (a : Agent) : Except String (Option String) :=
  (modelConfigDoc a).map (Option.map (fun d => renderConfigDoc d ++ "\n"))

/-! ### Debug-mode detection -/

/-- Outcome of probing `directory / "config.json"` for one directory, in
the order the source tests them: no file, unreadable/unparseable JSON, a
non-dict document, a dict without a "debug" key, or a dict whose "debug"
key holds the given value. -/
inductive ConfigProbe where
  | noFile : ConfigProbe
  | badJson : ConfigProbe
  | notDict : ConfigProbe
  | dictNoDebug : ConfigProbe
  | dictDebug (v : PyVal) : ConfigProbe
deriving DecidableEq

/-- A probe outcome the loop in `_detect_harbor_job_debug` skips
(everything except a dict with a "debug" key). -/
def probeSkipped : ConfigProbe → Bool
  | .dictDebug _ => false
  | _ => true

/-- The `for directory in search_dirs[:8]` loop body: skip until a dict
with a "debug" key, then `return self._parse_boolish(...) is True`. -/
def detectLoop : List ConfigProbe → Bool
  | [] => false
  | .dictDebug v :: _ => _parse_boolish v == some true
  | _ :: rest => detectLoop rest

/-- Embeds `CodeliaInstalledAgent._detect_harbor_job_debug`: `dirs` lists the
probe outcomes for `[self.logs_dir, *self.logs_dir.parents]` in order;
only the first 8 entries are examined. -/
def _detect_harbor_job_debug (dirs : List ConfigProbe) : Bool :=
  detectLoop (dirs.take 8)

/-- Embeds `CodeliaInstalledAgent._should_emit_prompt_progress_stderr`. -/
def _should_emit_prompt_progress_stderr (a : Agent) : Bool :=
  if a.prompt_progress_stderr_mode = "on" then true
  else if a.prompt_progress_stderr_mode = "off" then false
  else a.harbor_job_debug

/-! ### setup -/

/-- The `return_code`, `stdout` and `stderr` of one `environment.exec`
call. -/
structure ExecResult where
  return_code : Int
  stdout : String
  stderr : String
deriving DecidableEq

/-- What `setup` did: whether the auth file upload was performed, and the
raised error if any. -/
structure SetupOutcome where
  uploaded : Bool
  error : Option String
deriving DecidableEq

/-- Embeds `CodeliaInstalledAgent.setup`, as a function of the install script's
exec result: a nonzero return code raises
`failed to install codelia cli:` followed by stderr, or stdout, or the
text `unknown error`, the first non-empty one winning,
before the upload; otherwise the auth file is uploaded iff it exists. -/
def setup (a : Agent) (installResult : ExecResult) : SetupOutcome :=
  if installResult.return_code ≠ 0 then
    { uploaded := false
      error := some ("failed to install codelia cli: "
        ++ pyOr installResult.stderr (pyOr installResult.stdout "unknown error")) }
  else
    { uploaded := a.auth_file_exists, error := none }

/-! ### run -/

/-- The `context.metadata` dict assigned by `run`. -/
structure Metadata where
  agent : String
  approval_mode : String
  model_name : Option String
  reasoning : Option String
  experimental_openai_websocket_mode : Option String
  prompt_progress_stderr_mode : String
  prompt_progress_stderr_enabled : Bool
  harbor_debug : Bool
  auth_file_uploaded : Bool
  return_code : Int
deriving DecidableEq

/-- The metadata record `run` assigns for agent state `a` and agent exit
code `code`. -/
def runMetadata (a : Agent) (code : Int) : Metadata :=
  { agent := "codelia"
    approval_mode := a.approval_mode
    model_name := a.model_name
    reasoning := a.reasoning
    experimental_openai_websocket_mode := a.experimental_openai_websocket_mode
    prompt_progress_stderr_mode := a.prompt_progress_stderr_mode
    prompt_progress_stderr_enabled := _should_emit_prompt_progress_stderr a
    harbor_debug := a.harbor_job_debug
    auth_file_uploaded := a.auth_file_exists
    return_code := code }

/-- The three API-key variables `run` copies from the process
environment. -/
def credentialKeys : List String :=
  ["OPENAI_API_KEY", "ANTHROPIC_API_KEY", "OPENROUTER_API_KEY"]

/-- One iteration of the `for key in (...)` loop of `run`: append the
credential variable when its process-environment value is truthy (set and
non-empty). -/
def credStep (procEnv : String → Option String)
    (acc : List (String × String)) (key : String) : List (String × String) :=
  match procEnv key with
  | some v => if strTruthy v then acc ++ [(key, v)] else acc
  | none => acc

/-- The full credential-copying loop of `run`. -/
def addCredentialVars (procEnv : String → Option String)
    (envVars : List (String × String)) : List (String × String) :=
  credentialKeys.foldl (credStep procEnv) envVars

/-- The full environment map passed to the agent-invocation exec:
`CODELIA_LAYOUT`, the optional progress flag, the config-path pointer when
a config file was written, and the copied credential variables. -/
def runEnvVars (a : Agent) (procEnv : String → Option String)
    (configWritten : Bool) : List (String × String) :=
  addCredentialVars procEnv
    ([("CODELIA_LAYOUT", "home")]
      ++ (if _should_emit_prompt_progress_stderr a then
            [("CODELIA_PROMPT_PROGRESS_STDERR", "1")]
          else [])
      ++ (if configWritten then [("CODELIA_CONFIG_PATH", "/tmp/codelia/config.json")]
          else []))

/-- Observable outcome of `run`: the env map of the agent-invocation exec
when that exec was reached, the metadata written to the context (none if
`run` raised before the assignment), and the raised error if any. -/
structure RunOutcome where
  runEnv : Option (List (String × String))
  metadata : Option Metadata
  error : Option String

/-- Embeds `CodeliaInstalledAgent.run`, as a function of the agent state, the
adapter's process environment, and the environment's exec results for the
config write (`writeResult`, consulted only when a config document exists)
and for the agent invocation (`runResult`).  Mirrors the source order:
build the config JSON (a `ValueError` there propagates before anything
else), write it (nonzero exit raises), exec the agent, assign
`context.metadata`, then raise on a nonzero agent exit code. -/
def run (a : Agent) (procEnv : String → Option String)
    (writeResult runResult : ExecResult) : RunOutcome :=
  match _model_config_json a with
  | .error e => { runEnv := none, metadata := none, error := some e }
  | .ok ocfg =>
    if ocfg.isSome ∧ writeResult.return_code ≠ 0 then
      { runEnv := none
        metadata := none
        error := some ("failed to write model config: "
          ++ pyOr writeResult.stderr (pyOr writeResult.stdout "unknown error")) }
    else
      let envVars := runEnvVars a procEnv ocfg.isSome
      let meta := runMetadata a runResult.return_code
      if runResult.return_code ≠ 0 then
        { runEnv := some envVars
          metadata := some meta
          error := some ("codelia run failed with exit code "
            ++ toString runResult.return_code ++ ": "
            ++ pyOr runResult.stderr (pyOr runResult.stdout "unknown error")) }
      else
        { runEnv := some envVars, metadata := some meta, error := none }

/-! ### Concrete agent states used as claim inputs -/

/-- Agent state for model `"openai/gpt-5"` with reasoning `"high"`, all
other constructor arguments at their defaults. -/
def gpt5HighAgent : Agent :=
  { model_name := some "openai/gpt-5"
    approval_mode := "full-access"
    reasoning := some "high"
    experimental_openai_websocket_mode := none
    prompt_progress_stderr_mode := "auto"
    harbor_job_debug := false
    auth_file_exists := false }

/-- Agent state for model `"anthropic/claude-x"` with the experimental
websocket mode set to `"auto"`. -/
def anthropicWsAgent : Agent :=
  { model_name := some "anthropic/claude-x"
    approval_mode := "full-access"
    reasoning := none
    experimental_openai_websocket_mode := some "auto"
    prompt_progress_stderr_mode := "auto"
    harbor_job_debug := false
    auth_file_exists := false }

/-- Agent state with reasoning `"high"` but no model name. -/
def reasoningOnlyAgent : Agent :=
  { model_name := none
    approval_mode := "full-access"
    reasoning := some "high"
    experimental_openai_websocket_mode := none
    prompt_progress_stderr_mode := "auto"
    harbor_job_debug := false
    auth_file_exists := false }

/-- Agent state with every optional constructor argument unset. -/
def plainAgent : Agent :=
  { model_name := none
    approval_mode := "full-access"
    reasoning := none
    experimental_openai_websocket_mode := none
    prompt_progress_stderr_mode := "auto"
    harbor_job_debug := false
    auth_file_exists := false }

/-! ### Claims -/

/-- C3: a reasoning input whose trimmed, lower-cased form is non-empty and
not in \x7blow, medium, high, xhigh\x7d makes construction fail with an
invalid-argument error naming the allowed set; an input whose normalized
form is in the set succeeds and stores the lower-case canonical form; a
`None` or whitespace-only input yields an absent reasoning level. -/
theorem normalize_reasoning_spec (v : String) :
    (_normalize_reasoning none = Except.ok none) ∧
    (pyLower (pyStrip v) = "" → _normalize_reasoning (some v) = Except.ok none) ∧
    (pyLower (pyStrip v) ≠ "" → pyLower (pyStrip v) ∈ SUPPORTED_REASONING_LEVELS →
      _normalize_reasoning (some v) = Except.ok (some (pyLower (pyStrip v)))) ∧
    (pyLower (pyStrip v) ≠ "" → pyLower (pyStrip v) ∉ SUPPORTED_REASONING_LEVELS →
      _normalize_reasoning (some v)
        = Except.error "reasoning must be one of: high|low|medium|xhigh") := by
  refine ⟨rfl, fun h => ?_, fun h1 h2 => ?_, fun h1 h2 => ?_⟩
  · simp [_normalize_reasoning, h]
  · simp [_normalize_reasoning, h1, h2]
  · simp [_normalize_reasoning, reasoningSupportedMsg, h1, h2]

/-- C3 witness: `" HIGH "` normalizes to the stored canonical `"high"`. -/
theorem normalize_reasoning_spec_witness :
    _normalize_reasoning (some " HIGH ") = Except.ok (some (pyLower (pyStrip " HIGH "))) :=
  (normalize_reasoning_spec " HIGH ").2.2.1 (by decide) (by decide)

/-- C4: booleans, the numbers 0/1, and boolish strings normalize to
"on"/"off" by truth value; `None`, empty/whitespace strings and "auto"
normalize to "auto"; every remaining string fails with an invalid-argument
error, and every other number is rejected as neither bool nor string
(strings already matching \x7boff, auto, on\x7d are all covered by the
earlier clauses, so nothing else is accepted). -/
theorem normalize_prompt_progress_stderr_spec (b : Bool) (q : ℚ) (s : String) :
    (_normalize_prompt_progress_stderr .vNone = Except.ok "auto") ∧
    (_normalize_prompt_progress_stderr (.vBool b)
      = Except.ok (if b then "on" else "off")) ∧
    (_normalize_prompt_progress_stderr (.vNum 1) = Except.ok "on") ∧
    (_normalize_prompt_progress_stderr (.vNum 0) = Except.ok "off") ∧
    (q ≠ 0 → q ≠ 1 → _normalize_prompt_progress_stderr (.vNum q)
      = Except.error "prompt_progress_stderr must be bool or string") ∧
    (pyLower (pyStrip s) ∈ ["1", "true", "yes", "on"] →
      _normalize_prompt_progress_stderr (.vStr s) = Except.ok "on") ∧
    (pyLower (pyStrip s) ∈ ["0", "false", "no", "off"] →
      _normalize_prompt_progress_stderr (.vStr s) = Except.ok "off") ∧
    (pyLower (pyStrip s) = "" ∨ pyLower (pyStrip s) = "auto" →
      _normalize_prompt_progress_stderr (.vStr s) = Except.ok "auto") ∧
    (pyLower (pyStrip s) ∉
        ["1", "true", "yes", "on", "0", "false", "no", "off", "", "auto"] →
      _normalize_prompt_progress_stderr (.vStr s)
        = Except.error "prompt_progress_stderr must be one of: auto|off|on") := by
  refine ⟨rfl, by cases b <;> rfl, rfl, rfl, fun h0 h1 => ?_, fun h => ?_, fun h => ?_,
    fun h => ?_, fun h => ?_⟩
  · simp [_normalize_prompt_progress_stderr, _parse_boolish, h0, h1]
  · simp only [List.mem_cons, List.not_mem_nil, or_false] at h
    rcases h with h | h | h | h <;> simp [_normalize_prompt_progress_stderr, _parse_boolish, h]
  · simp only [List.mem_cons, List.not_mem_nil, or_false] at h
    rcases h with h | h | h | h <;> simp [_normalize_prompt_progress_stderr, _parse_boolish, h]
  · rcases h with h | h <;> simp [_normalize_prompt_progress_stderr, _parse_boolish, h]
  · simp only [List.mem_cons, List.mem_singleton, not_or] at h
    obtain ⟨h1, h2, h3, h4, h5, h6, h7, h8, h9, h10⟩ := h
    simp [_normalize_prompt_progress_stderr, _parse_boolish,
      SUPPORTED_PROMPT_PROGRESS_STDERR_MODES, h1, h2, h3, h4, h5, h6, h7, h8, h9, h10]

/-- C4 witness: the number 2 is rejected as neither bool nor string. -/
theorem normalize_prompt_progress_stderr_spec_witness :
    _normalize_prompt_progress_stderr (.vNum 2)
      = Except.error "prompt_progress_stderr must be bool or string" :=
  (normalize_prompt_progress_stderr_spec true 2 "x").2.2.2.2.1 (by decide) (by decide)

/-- The split of `p ++ "/" ++ rest` at the first slash recovers `p` and
`rest` when `p` is slash-free. -/
theorem splitFirstSlash_append (p rest : List Char) (hp : '/' ∉ p) :
    splitFirstSlash (p ++ '/' :: rest) = (p, rest) := by
  induction p with
  | nil => simp [splitFirstSlash]
  | cons c cs ih =>
    have hc : c ≠ '/' := fun h => hp (h ▸ List.mem_cons_self c cs)
    have hcs : '/' ∉ cs := fun h => hp (List.mem_cons_of_mem c h)
    simp [splitFirstSlash, hc, ih hcs]

/-- A list containing a slash tests positive for `containsSlash`. -/
theorem containsSlash_append (p rest : List Char) :
    containsSlash (p ++ '/' :: rest) = true := by
  induction p with
  | nil => simp [containsSlash]
  | cons c cs ih => simp [containsSlash, ih]

/-- A slash-free list tests negative for `containsSlash`. -/
theorem containsSlash_eq_false (l : List Char) (h : '/' ∉ l) :
    containsSlash l = false := by
  induction l with
  | nil => rfl
  | cons c cs ih =>
    have hc : c ≠ '/' := fun hh => h (hh ▸ List.mem_cons_self c cs)
    simp [containsSlash, hc, ih (fun hh => h (List.mem_cons_of_mem c hh))]

/-- C9: only the first slash separates provider from name — for any
slash-free `p`, the model name `p ++ "/" ++ rest` resolves to the trimmed
`p` and the trimmed `rest` (which may itself contain slashes), absent
exactly when either trimmed part is empty; concretely `"a/b/c"` gives
provider `"a"` and name `"b/c"`; for a slash-free bare name the provider
defaults to `"openai"`; an unset or empty model name gives no selector. -/
theorem resolve_model_selector_spec (p rest s : String) :
    (_resolve_model_selector none = none) ∧
    (_resolve_model_selector (some "") = none) ∧
    (_resolve_model_selector (some "a/b/c") = some ("a", "b/c")) ∧
    ('/' ∉ p.data → _resolve_model_selector (some (p ++ "/" ++ rest))
      = (if pyStrip p = "" ∨ pyStrip rest = "" then none
         else some (pyStrip p, pyStrip rest))) ∧
    ('/' ∉ s.data → s ≠ "" → _resolve_model_selector (some s)
      = (if pyStrip s = "" then none else some ("openai", pyStrip s))) := by
  refine ⟨rfl, rfl, by decide, fun hp => ?_, fun hs hne => ?_⟩
  · have hdata : (p ++ "/" ++ rest).data = p.data ++ '/' :: rest.data := by
      simp [String.data_append]
    have hne : p ++ "/" ++ rest ≠ "" := by
      intro h
      have : (p ++ "/" ++ rest).data = ([] : List Char) := by rw [h]
      rw [hdata] at this
      simp at this
    rw [_resolve_model_selector]
    rw [if_neg hne, hdata, containsSlash_append, splitFirstSlash_append p.data rest.data hp]
    rfl
  · have hcf : containsSlash s.data = false := containsSlash_eq_false s.data hs
    have h1 : pyStrip "openai" = "openai" := by decide
    have h2 : ("openai" : String) ≠ "" := by decide
    rw [_resolve_model_selector, if_neg hne]
    simp [hcf, h1, h2]

/-- C9 witness: `" a /b/c "` resolves through the first slash only. -/
theorem resolve_model_selector_spec_witness :
    _resolve_model_selector (some (" a " ++ "/" ++ "b/c "))
      = (if pyStrip " a " = "" ∨ pyStrip "b/c " = "" then none
         else some (pyStrip " a ", pyStrip "b/c ")) :=
  (resolve_model_selector_spec " a " "b/c " "x").2.2.2.1 (by decide)

/-- C2 (amended): for model "openai/gpt-5" with reasoning "high" and no
experimental mode, the generated config JSON string is the
`json.dumps(..., indent=2)` rendering of the document with fields in the
order version, model.provider, model.name, model.reasoning and no
experimental block, followed by a trailing newline — not the compact
single-line string. -/
theorem model_config_json_gpt5_high :
    _model_config_json gpt5HighAgent
      = Except.ok (some ("\x7b\n  \"version\": 1,\n  \"model\": \x7b\n    \"provider\": \"openai\",\n    \"name\": \"gpt-5\",\n    \"reasoning\": \"high\"\n  \x7d\n\x7d\n")) := by
  decide

/-- C2 counterexample: the generated string is not exactly the compact
single-line JSON the claim states — `json.dumps` is called with
`indent=2` and a newline is appended. -/
theorem model_config_json_gpt5_high_counterexample :
    _model_config_json gpt5HighAgent
      ≠ Except.ok (some "\x7b\"version\":1,\"model\":\x7b\"provider\":\"openai\",\"name\":\"gpt-5\",\"reasoning\":\"high\"\x7d\x7d") := by
  decide

/-- C5: an experimental websocket mode together with a resolved provider
other than "openai" makes the model-config request fail with an
invalid-argument error; with provider "openai" it succeeds and the
produced document carries `experimental.openai.websocket_mode` holding
the normalized mode. -/
theorem model_config_experimental_spec (a : Agent) (p n m : String) :
    (a.experimental_openai_websocket_mode = some m → m ≠ "" →
      _resolve_model_selector a.model_name = some (p, n) → p ≠ "openai" →
      _model_config_json a = Except.error
        "experimental_openai_websocket_mode is only supported for openai provider") ∧
    (a.experimental_openai_websocket_mode = some m → m ≠ "" →
      _resolve_model_selector a.model_name = some ("openai", n) →
      ∃ d, modelConfigDoc a = Except.ok (some d) ∧ d.websocketMode = some m) := by
  constructor
  · intro hm hmne hres hp
    simp [_model_config_json, modelConfigDoc, Except.map, hres, hm, hmne, hp, optTruthy,
      strTruthy]
  · intro hm hmne hres
    refine ⟨⟨1, "openai", n,
        if optTruthy a.reasoning then a.reasoning else none,
        if optTruthy a.experimental_openai_websocket_mode then
          a.experimental_openai_websocket_mode
        else none⟩, ?_, ?_⟩
    · simp [modelConfigDoc, hres]
    · simp [hm, hmne, optTruthy, strTruthy]

/-- C5 witness: provider "anthropic" with websocket mode "auto" is
rejected. -/
theorem model_config_experimental_spec_witness :
    _model_config_json anthropicWsAgent = Except.error
      "experimental_openai_websocket_mode is only supported for openai provider" :=
  (model_config_experimental_spec anthropicWsAgent "anthropic" "claude-x" "auto").1
    rfl (by decide) (by decide) (by decide)

/-- C6: with no resolvable model selector, a set (truthy) reasoning level
or experimental mode makes the model-config request fail with an
invalid-argument error, and with neither set the request returns no
document and does not raise. -/
theorem model_config_requires_model_spec (a : Agent) :
    (_resolve_model_selector a.model_name = none →
      (optTruthy a.reasoning || optTruthy a.experimental_openai_websocket_mode) = true →
      _model_config_json a = Except.error
        "reasoning and experimental_openai_websocket_mode require model_name") ∧
    (_resolve_model_selector a.model_name = none →
      (optTruthy a.reasoning || optTruthy a.experimental_openai_websocket_mode) = false →
      _model_config_json a = Except.ok none) := by
  constructor <;> intro hres h <;>
    simp [_model_config_json, modelConfigDoc, Except.map, hres, h]

/-- C6 witness: reasoning "high" with no model name is rejected; with
nothing set the request returns no document. -/
theorem model_config_requires_model_spec_witness :
    _model_config_json reasoningOnlyAgent = Except.error
      "reasoning and experimental_openai_websocket_mode require model_name" :=
  (model_config_requires_model_spec reasoningOnlyAgent).1 rfl (by decide)

/-- Association lookup distributes over append. -/
theorem lookup_append (k : String) (l1 l2 : List (String × String)) :
    List.lookup k (l1 ++ l2)
      = match List.lookup k l1 with
        | some v => some v
        | none => List.lookup k l2 := by
  induction l1 with
  | nil => simp [List.lookup]
  | cons x xs ih =>
    obtain ⟨xk, xv⟩ := x
    by_cases h : (k == xk) = true <;> simp [List.lookup, h, ih]

/-- A loop iteration for a different key leaves a lookup unchanged. -/
theorem lookup_credStep_ne (penv : String → Option String)
    (acc : List (String × String)) (k key : String) (hne : k ≠ key) :
    List.lookup k (credStep penv acc key) = List.lookup k acc := by
  unfold credStep
  rcases h : penv key with _ | v
  · rfl
  · by_cases hv : strTruthy v = true
    · have hkk : (k == key) = false := by simpa using hne
      cases hacc : List.lookup k acc <;>
        simp [hv, lookup_append, hacc, List.lookup, hkk]
    · simp [hv]

/-- A loop iteration for `k` itself installs exactly the truthy value. -/
theorem lookup_credStep_self (penv : String → Option String)
    (acc : List (String × String)) (k : String)
    (hacc : List.lookup k acc = none) :
    List.lookup k (credStep penv acc k)
      = match penv k with
        | some v => if v = "" then none else some v
        | none => none := by
  unfold credStep
  rcases h : penv k with _ | v
  · exact hacc
  · by_cases hv : v = ""
    · simp [strTruthy, hv, hacc]
    · simp [strTruthy, hv, lookup_append, hacc, List.lookup]

/-- Lookup of a credential key after the copy loop: the process
environment's value when set and non-empty, absent otherwise (provided
the key was not already in the map). -/
theorem lookup_addCredentialVars (penv : String → Option String)
    (l : List (String × String)) (k : String) (hk : k ∈ credentialKeys)
    (hl : List.lookup k l = none) :
    List.lookup k (addCredentialVars penv l)
      = match penv k with
        | some v => if v = "" then none else some v
        | none => none := by
  simp only [credentialKeys, List.mem_cons, List.not_mem_nil, or_false] at hk
  have hstep : addCredentialVars penv l
      = credStep penv (credStep penv (credStep penv l "OPENAI_API_KEY")
          "ANTHROPIC_API_KEY") "OPENROUTER_API_KEY" := rfl
  rw [hstep]
  rcases hk with rfl | rfl | rfl
  · rw [lookup_credStep_ne _ _ _ _ (by decide), lookup_credStep_ne _ _ _ _ (by decide)]
    exact lookup_credStep_self penv _ _ hl
  · rw [lookup_credStep_ne _ _ _ _ (by decide)]
    exact lookup_credStep_self penv _ _
      (by rw [lookup_credStep_ne _ _ _ _ (by decide)]; exact hl)
  · exact lookup_credStep_self penv _ _
      (by rw [lookup_credStep_ne _ _ _ _ (by decide),
        lookup_credStep_ne _ _ _ _ (by decide)]; exact hl)

/-- C10: each of the three credential variables appears in the run
command's environment map exactly when the adapter's process environment
holds it with a non-empty value; an empty-string value is omitted like an
unset one, and a present value is copied through unchanged. -/
theorem run_credential_env_spec (a : Agent) (penv : String → Option String)
    (cw : Bool) (k : String) (hk : k ∈ credentialKeys) :
    List.lookup k (runEnvVars a penv cw)
      = match penv k with
        | some v => if v = "" then none else some v
        | none => none := by
  unfold runEnvVars
  refine lookup_addCredentialVars penv _ k hk ?_
  have hk' := hk
  simp only [credentialKeys, List.mem_cons, List.not_mem_nil, or_false] at hk'
  rcases hk' with rfl | rfl | rfl <;>
    cases hp : _should_emit_prompt_progress_stderr a <;> cases cw <;>
      simp [List.lookup, hp]

/-- C10 witness: a non-empty `ANTHROPIC_API_KEY` is copied through
unchanged even though every other variable is set to the empty string. -/
theorem run_credential_env_spec_witness :
    List.lookup "ANTHROPIC_API_KEY"
        (runEnvVars plainAgent
          (fun key => if key = "ANTHROPIC_API_KEY" then some "sk-test" else some "")
          true)
      = some "sk-test" :=
  run_credential_env_spec plainAgent
    (fun key => if key = "ANTHROPIC_API_KEY" then some "sk-test" else some "")
    true "ANTHROPIC_API_KEY" (by decide)

/-- C1 counterexample: with a reasoning level set but no model name, the
config-document build inside `run` raises before `context.metadata` is
assigned, so this fatal run failure leaves no metadata — refuting the
claim that every fatal failure inside `run` leaves the metadata written. -/
theorem run_metadata_counterexample :
    (run reasoningOnlyAgent (fun _ => none) ⟨0, "", ""⟩ ⟨0, "", ""⟩).error
        = some "reasoning and experimental_openai_websocket_mode require model_name" ∧
    (run reasoningOnlyAgent (fun _ => none) ⟨0, "", ""⟩ ⟨0, "", ""⟩).metadata = none :=
  ⟨rfl, rfl⟩

/-- C1 (amended): once the config stage has succeeded (no config-document
build error and, when a document exists, a zero config-write exit code),
`run` populates the context metadata — including the agent exit code —
regardless of whether the agent exits zero, and raises exactly on a
nonzero exit; a config-document build failure or a config-write failure,
however, raises before the metadata is written. -/
theorem run_metadata_spec (a : Agent) (penv : String → Option String)
    (wr rr : ExecResult) :
    (∀ e, _model_config_json a = Except.error e →
      (run a penv wr rr).metadata = none ∧ (run a penv wr rr).error = some e) ∧
    (∀ cfg, _model_config_json a = Except.ok (some cfg) → wr.return_code ≠ 0 →
      (run a penv wr rr).metadata = none ∧ (run a penv wr rr).error.isSome = true) ∧
    ((_model_config_json a = Except.ok none ∨
        (∃ cfg, _model_config_json a = Except.ok (some cfg) ∧ wr.return_code = 0)) →
      (run a penv wr rr).metadata = some (runMetadata a rr.return_code) ∧
      ((run a penv wr rr).error.isSome = true ↔ rr.return_code ≠ 0)) := by
  refine ⟨fun e he => ?_, fun cfg hc hw => ?_, fun hok => ?_⟩
  · simp [run, he]
  · simp [run, hc, hw]
  · rcases hok with hnone | ⟨cfg, hc, hw⟩ <;>
      [skip; skip] <;> by_cases hrr : rr.return_code = 0
    · simp [run, hnone, hrr]
    · simp [run, hnone, hrr]
    · simp [run, hc, hw, hrr]
    · simp [run, hc, hw, hrr]

/-- C1 witness: with no model config involved, a nonzero agent exit code
still leaves the metadata populated with that exit code, and the error is
raised. -/
theorem run_metadata_spec_witness :
    (run plainAgent (fun _ => none) ⟨0, "", ""⟩ ⟨2, "", "err"⟩).metadata
        = some (runMetadata plainAgent 2) ∧
    ((run plainAgent (fun _ => none) ⟨0, "", ""⟩ ⟨2, "", "err"⟩).error.isSome = true
      ↔ (2 : Int) ≠ 0) :=
  (run_metadata_spec plainAgent (fun _ => none) ⟨0, "", ""⟩ ⟨2, "", "err"⟩).2.2
    (Or.inl (by decide))

/-- Skipped probes do not change the loop's result. -/
theorem detectLoop_append_skipped (pre l : List ConfigProbe)
    (h : ∀ x ∈ pre, probeSkipped x = true) :
    detectLoop (pre ++ l) = detectLoop l := by
  induction pre with
  | nil => rfl
  | cons x xs ih =>
    have hx : probeSkipped x = true := h x (List.mem_cons_self x xs)
    have hxs : ∀ y ∈ xs, probeSkipped y = true := fun y hy => h y (List.mem_cons_of_mem x hy)
    cases x with
    | dictDebug v => simp [probeSkipped] at hx
    | noFile => simpa [detectLoop] using ih hxs
    | badJson => simpa [detectLoop] using ih hxs
    | notDict => simpa [detectLoop] using ih hxs
    | dictNoDebug => simpa [detectLoop] using ih hxs

/-- C7: only the first 8 directories are examined; among them the first
probe that found a JSON object with a "debug" key decides the result —
true exactly when the value parses as boolean-true — while directories
with no config.json, malformed JSON, a non-object document, or no "debug"
key are skipped; if no probe among the first 8 decides, the result is
false. -/
theorem detect_harbor_job_debug_spec (dirs pre post l₁ l₂ : List ConfigProbe) (v : PyVal) :
    (l₁.length = 8 → _detect_harbor_job_debug (l₁ ++ l₂) = _detect_harbor_job_debug l₁) ∧
    (dirs.take 8 = pre ++ .dictDebug v :: post → (∀ x ∈ pre, probeSkipped x = true) →
      _detect_harbor_job_debug dirs = (_parse_boolish v == some true)) ∧
    ((∀ x ∈ dirs.take 8, probeSkipped x = true) → _detect_harbor_job_debug dirs = false) := by
  refine ⟨fun hlen => ?_, fun htake hpre => ?_, fun hall => ?_⟩
  · unfold _detect_harbor_job_debug
    rw [List.take_append_eq_append_take, hlen]
    simp [List.take_of_length_le (le_of_eq hlen)]
  · unfold _detect_harbor_job_debug
    rw [htake, detectLoop_append_skipped pre _ hpre]
    rfl
  · unfold _detect_harbor_job_debug
    have := detectLoop_append_skipped (dirs.take 8) [] hall
    simpa using this

/-- C7 witness: a skipped directory followed by a config with
`"debug": "yes"` decides true; eight skipped directories hide a deciding
ninth. -/
theorem detect_harbor_job_debug_spec_witness :
    _detect_harbor_job_debug [.noFile, .dictDebug (.vStr "yes")]
      = (_parse_boolish (.vStr "yes") == some true) :=
  (detect_harbor_job_debug_spec [.noFile, .dictDebug (.vStr "yes")] [.noFile] []
      [] [] (.vStr "yes")).2.1 (by decide) (by decide)

/-- C8: a nonzero install exec return code makes `setup` raise before any
file upload is attempted, carrying the captured stderr when non-empty,
else the captured stdout when non-empty, else a generic message; a zero
return code does not raise. -/
theorem setup_spec (a : Agent) (r : ExecResult) :
    (r.return_code ≠ 0 →
      (setup a r).uploaded = false ∧
      (setup a r).error = some ("failed to install codelia cli: "
        ++ (if r.stderr ≠ "" then r.stderr
            else if r.stdout ≠ "" then r.stdout
            else "unknown error"))) ∧
    (r.return_code = 0 → (setup a r).error = none) := by
  constructor
  · intro h
    refine ⟨by simp [setup, h], ?_⟩
    simp only [setup, if_pos h, pyOr]
    by_cases h1 : r.stderr = "" <;> by_cases h2 : r.stdout = "" <;> simp [h1, h2]
  · intro h
    simp [setup, h]

/-- C8 witness: exit code 1 with empty stderr surfaces the stdout text and
performs no upload; exit code 0 raises nothing. -/
theorem setup_spec_witness :
    (setup plainAgent ⟨1, "boom", ""⟩).uploaded = false ∧
    (setup plainAgent ⟨1, "boom", ""⟩).error
      = some ("failed to install codelia cli: "
        ++ (if ("" : String) ≠ "" then ""
            else if ("boom" : String) ≠ "" then "boom"
            else "unknown error")) :=
  (setup_spec plainAgent ⟨1, "boom", ""⟩).1 (by decide)
